import Mathlib

/-!
Shallow embedding of the Connected state of the Mullvad VPN tunnel state
machine (`talpid-core/src/tunnel_state_machine/connected_state.rs`) together
with the parts of `talpid-types` it depends on
(`talpid-types/src/net/wireguard.rs`).

The embedding targets the Linux configuration of the code: the
`cfg(not(windows))`, `cfg(not(target_os = "android"))` and
`cfg(not(target_os = "macos"))` arms, plus the `cfg(target_os = "linux")`
route-rule clearing.  The macOS `SetExcludedApps` command arm, which does not
exist on Linux, is embedded separately as `handle_set_excluded_apps_macos`.

Collaborator calls (firewall, DNS monitor, route manager, one-shot channels,
logging) are modelled as an explicit effect trace: every embedded function
returns, besides its result, the list of collaborator calls it issued, in
order.  The behaviour of each collaborator is an oracle carried inside
`SharedTunnelStateValues`, exactly where the source keeps the corresponding
handle.
-/

/-- IP addresses are treated as atoms. -/
abbrev IpAddr := Nat

/-- `std::net::SocketAddr`: an address plus a port. -/
structure SocketAddr where
  ip : IpAddr
  port : Nat
deriving DecidableEq, Repr

/-- `talpid_types::net::TransportProtocol`. -/
inductive TransportProtocol
  | Udp
  | Tcp
deriving DecidableEq, Repr

/-- `talpid_types::net::Endpoint`: a socket address plus transport protocol. -/
structure Endpoint where
  address : SocketAddr
  protocol : TransportProtocol
deriving DecidableEq, Repr

/-- `talpid_types::net::AllowedClients` (the non-Windows form): either all
processes or only superuser processes may reach the allowed endpoint. -/
inductive AllowedClients
  | All
  | Root
deriving DecidableEq, Repr

/-- `talpid_types::net::AllowedEndpoint`: an endpoint plus which local clients
may reach it. -/
structure AllowedEndpoint where
  endpoint : Endpoint
  clients : AllowedClients
deriving DecidableEq, Repr

/-- WireGuard keys and IP networks are atoms: their internal structure is
irrelevant to the state machine. -/
abbrev PublicKey := Nat

abbrev PrivateKey := Nat

abbrev PresharedKey := Nat

abbrev IpNetwork := Nat

/-- Modelled from the spec: `talpid_types::net::GenericTunnelOptions` is not
under `src/`; it is carried opaquely by `TunnelParameters` and never read by
the Connected state. -/
abbrev GenericTunnelOptions := Nat

/-- Modelled from the spec: `talpid_types::net::obfuscation::ObfuscatorConfig`
is not under `src/`.  Per the glossary, an obfuscator is an outer transport
interposed between the client and the real tunnel peer; all the Connected
state reads from it is its (outer) endpoint, via `get_obfuscator_endpoint`. -/
structure ObfuscatorConfig where
  endpoint : Endpoint
deriving DecidableEq, Repr

/-- Modelled from the spec: the endpoint of the obfuscator transport. -/
def ObfuscatorConfig.get_obfuscator_endpoint (c : ObfuscatorConfig) : Endpoint :=
  c.endpoint

/-- `talpid_types::net::wireguard::PeerConfig`. -/
structure PeerConfig where
  public_key : PublicKey
  allowed_ips : List IpNetwork
  endpoint : SocketAddr
  psk : Option PresharedKey
deriving DecidableEq, Repr

/-- `talpid_types::net::wireguard::TunnelConfig`. -/
structure TunnelConfig where
  private_key : PrivateKey
  addresses : List IpAddr
deriving DecidableEq, Repr

/-- `talpid_types::net::wireguard::TunnelOptions` (without the `daita`-gated
field). -/
structure TunnelOptions where
  mtu : Option Nat
  quantum_resistant : Bool
deriving DecidableEq, Repr

/-- `talpid_types::net::wireguard::ConnectionConfig` (with the Linux `fwmark`
field). -/
structure ConnectionConfig where
  tunnel : TunnelConfig
  peer : PeerConfig
  exit_peer : Option PeerConfig
  ipv4_gateway : IpAddr
  ipv6_gateway : Option IpAddr
  fwmark : Option Nat
deriving DecidableEq, Repr

/-- `ConnectionConfig::get_endpoint`. -/
def ConnectionConfig.get_endpoint (c : ConnectionConfig) : Endpoint :=
  { address := c.peer.endpoint, protocol := TransportProtocol.Udp }

/-- `ConnectionConfig::get_exit_endpoint`. -/
def ConnectionConfig.get_exit_endpoint (c : ConnectionConfig) : Option Endpoint :=
  c.exit_peer.map fun peer =>
    { address := peer.endpoint, protocol := TransportProtocol.Udp }

/-- `talpid_types::net::wireguard::TunnelParameters`. -/
structure Wireguard.TunnelParameters where
  connection : ConnectionConfig
  options : TunnelOptions
  generic_options : GenericTunnelOptions
  obfuscation : Option ObfuscatorConfig
deriving DecidableEq, Repr

/-- `wireguard::TunnelParameters::get_next_hop_endpoint`: the endpoint that
will be connected to — the obfuscator's endpoint if an obfuscation config is
present, the raw peer endpoint otherwise. -/
def Wireguard.TunnelParameters.get_next_hop_endpoint
    (p : Wireguard.TunnelParameters) : Endpoint :=
  (p.obfuscation.map fun proxy => proxy.get_obfuscator_endpoint).getD
    p.connection.get_endpoint

/-- Modelled from the spec: the OpenVPN local proxy settings type
(`talpid_types::net::openvpn`) is not under `src/`.  The spec only says a
local proxy is an unprivileged process that must itself reach the peer
outside the tunnel, so all the model keeps is the endpoint the proxy
connects to. -/
structure LocalProxySettings where
  peer_endpoint : Endpoint
deriving DecidableEq, Repr

/-- Modelled from the spec: `talpid_types::net::TunnelParameters`, the
tunnel-kind enum, is not under `src/`; its WireGuard variant wraps the
`wireguard::TunnelParameters` that is under `src/`, and its OpenVPN variant
carries the raw peer endpoint plus optional local proxy settings. -/
inductive TunnelParameters
  | wireguard (params : Wireguard.TunnelParameters)
  | openvpn (endpoint : Endpoint) (proxy : Option LocalProxySettings)
deriving DecidableEq, Repr

/-- Modelled from the spec: `net::TunnelParameters::get_next_hop_endpoint`
dispatches per tunnel kind — for WireGuard via the `src/` function above, for
OpenVPN the proxy's endpoint if a local proxy is configured, else the raw
endpoint. -/
def TunnelParameters.get_next_hop_endpoint : TunnelParameters → Endpoint
  | TunnelParameters.wireguard params => params.get_next_hop_endpoint
  | TunnelParameters.openvpn endpoint proxy =>
      (proxy.map fun p => p.peer_endpoint).getD endpoint

/-- Modelled from the spec:
`net::TunnelParameters::get_openvpn_local_proxy_settings` is not under
`src/`; it returns the local proxy settings when the parameters are OpenVPN
parameters with a local proxy/obfuscator active, and nothing otherwise. -/
def TunnelParameters.get_openvpn_local_proxy_settings :
    TunnelParameters → Option LocalProxySettings
  | TunnelParameters.wireguard _ => none
  | TunnelParameters.openvpn _ proxy => proxy

/-- Modelled from the spec: `talpid_types::net::TunnelEndpoint` is not under
`src/`; it is the externally visible tunnel endpoint carried by the Connected
transition (with the obfuscator's outer endpoint hidden from it), plus the
tunnel interface name. -/
structure TunnelEndpoint where
  endpoint : Endpoint
  tunnel_interface : Option String
deriving DecidableEq, Repr

/-- Modelled from the spec: `net::TunnelParameters::get_tunnel_endpoint`
returns the externally visible endpoint — the raw peer endpoint, never the
obfuscator's outer endpoint — with no interface filled in yet. -/
def TunnelParameters.get_tunnel_endpoint : TunnelParameters → TunnelEndpoint
  | TunnelParameters.wireguard params =>
      { endpoint := params.connection.get_endpoint, tunnel_interface := none }
  | TunnelParameters.openvpn endpoint _ =>
      { endpoint := endpoint, tunnel_interface := none }

/-- Modelled from the spec: `crate::tunnel::TunnelMetadata` is not under
`src/`; per §3 the `Up` event's metadata carries the interface name, the
assigned addresses and the gateway(s). -/
structure TunnelMetadata where
  interface : String
  ips : List IpAddr
  ipv4_gateway : IpAddr
  ipv6_gateway : Option IpAddr
deriving DecidableEq, Repr

/-- Modelled from the spec: the tunnel gateways — the IPv4 gateway plus the
IPv6 gateway when present. -/
def TunnelMetadata.gateways (m : TunnelMetadata) : List IpAddr :=
  m.ipv4_gateway :: m.ipv6_gateway.toList

/-- Modelled from the spec: `crate::dns::DnsConfig` is not under `src/`; the
configured DNS is either the platform default (resolve to the tunnel
gateways) or an explicit server list. -/
inductive DnsConfig
  | default
  | custom (servers : List IpAddr)
deriving DecidableEq, Repr

/-- Modelled from the spec: `crate::dns::ResolvedDnsConfig` is not under
`src/`; the resolved configuration is the list of DNS server addresses. -/
abbrev ResolvedDnsConfig := List IpAddr

/-- Modelled from the spec: `DnsConfig::resolve` resolves the DNS
configuration against the tunnel gateways (§4.4 step 2). -/
def DnsConfig.resolve (c : DnsConfig) (gateways : List IpAddr) :
    ResolvedDnsConfig :=
  match c with
  | DnsConfig.default => gateways
  | DnsConfig.custom servers => servers

/-- Modelled from the spec: `crate::firewall::FirewallPolicy` is not under
`src/`; only the `Connected` variant is constructed by the Connected state,
with exactly the fields filled in by `get_firewall_policy` on Linux
(no Windows relay-client list, no macOS redirect interface). -/
inductive FirewallPolicy
  | Connected (peer_endpoint : AllowedEndpoint) (tunnel : TunnelMetadata)
      (allow_lan : Bool) (dns_config : ResolvedDnsConfig)
deriving DecidableEq, Repr

/-- `talpid_types::tunnel::FirewallPolicyError` as used on non-Windows
platforms: only the `Generic` variant is ever produced. -/
inductive FirewallPolicyError
  | Generic
deriving DecidableEq, Repr

/-- Errors of the firewall collaborator (`crate::firewall::Error`) and boxed
DNS errors are atoms: the Connected state only logs them. -/
abbrev FirewallError := Nat

abbrev BoxedError := Nat

/-- Modelled from the spec: `talpid_types::tunnel::ErrorStateCause` is not
under `src/`; §3 lists `SetFirewallPolicyError`, `SetDnsError`, `IsOffline`
and tunnel-specific fatal causes (here `Other`, with an atomic payload). -/
inductive ErrorStateCause
  | SetFirewallPolicyError (error : FirewallPolicyError)
  | SetDnsError
  | IsOffline
  | Other (payload : Nat)
deriving DecidableEq, Repr

/-- `AfterDisconnect` (§3): the directive attached to every transition into
Disconnecting. -/
inductive AfterDisconnect
  | Nothing
  | Reconnect (retry_attempt : Nat)
  | Block (cause : ErrorStateCause)
deriving DecidableEq, Repr

/-- One collaborator call issued by the Connected state, in the order the
source issues them. `CompleteSend` is a send on the one-shot completion
channel carried by the command being handled. -/
inductive Effect
  | ApplyFirewallPolicy (policy : FirewallPolicy)
  | SetDns (interface : String) (config : ResolvedDnsConfig)
  | ResetDnsBeforeInterfaceRemoval
  | ClearRoutes
  | ClearRoutingRules
  | CompleteSend
  | LogError (msg : String)
  | LogInfo (msg : String)
  | LogWarn (msg : String)
deriving DecidableEq, Repr

/-- The firewall collaborator handle: an oracle mapping each policy to the
outcome `apply_policy` returns for it. -/
structure Firewall where
  apply_policy : FirewallPolicy → Except FirewallError Unit

/-- The DNS monitor collaborator handle: oracles for `set` and for
`reset_before_interface_removal`. -/
structure DnsMonitor where
  set : String → ResolvedDnsConfig → Except BoxedError Unit
  reset_before_interface_removal : Except BoxedError Unit

/-- The route manager collaborator handle: oracles for `clear_routes` and the
Linux-only `clear_routing_rules`. -/
structure RouteManager where
  clear_routes : Except BoxedError Unit
  clear_routing_rules : Except BoxedError Unit

/-- Modelled from the spec: `talpid_types::net::Connectivity` is not under
`src/`; all the Connected state reads from it is whether it reports fully
offline. -/
inductive Connectivity
  | Online
  | Offline
deriving DecidableEq, Repr

/-- Whether the connectivity status reports fully offline. -/
def Connectivity.is_offline : Connectivity → Bool
  | Connectivity.Online => false
  | Connectivity.Offline => true

/-- `SharedTunnelStateValues` (§3), restricted to the fields the Connected
state touches on Linux: the collaborator handles plus the mutable flags. -/
structure SharedTunnelStateValues where
  firewall : Firewall
  dns_monitor : DnsMonitor
  route_manager : RouteManager
  allow_lan : Bool
  block_when_disconnected : Bool
  connectivity : Connectivity
  dns_config : DnsConfig
  allowed_endpoint : AllowedEndpoint

/-- Modelled from the spec: `SharedTunnelStateValues::set_allow_lan` is not
under `src/`; it stores the new flag and reports whether it actually differed
from the current one (§4.4: "changed and actually differs"). -/
def SharedTunnelStateValues.set_allow_lan (s : SharedTunnelStateValues)
    (allow_lan : Bool) : SharedTunnelStateValues × Bool :=
  if s.allow_lan = allow_lan then (s, false)
  else ({ s with allow_lan := allow_lan }, true)

/-- Modelled from the spec: `SharedTunnelStateValues::set_dns_config` is not
under `src/`; it stores the new DNS configuration and reports whether it
differed from the current one (§4.4: "changed and differs"). -/
def SharedTunnelStateValues.set_dns_config (s : SharedTunnelStateValues)
    (config : DnsConfig) : SharedTunnelStateValues × Bool :=
  if s.dns_config = config then (s, false)
  else ({ s with dns_config := config }, true)

/-- `ConnectedState` (connected_state.rs): the tunnel is up and working.  The
tunnel-event receiver, the tunnel-close future and the stop sender are
channel handles; their identities are atoms here, and the stimuli they would
deliver are passed to the handlers explicitly. -/
structure ConnectedState where
  metadata : TunnelMetadata
  tunnel_events : Nat
  tunnel_parameters : TunnelParameters
  tunnel_close_event : Nat
  tunnel_close_tx : Nat
deriving DecidableEq, Repr

/-- Modelled from the spec: `DisconnectingState` (disconnecting_state.rs, not
under `src/`) holds the stop sender, the tunnel-close future and the
`AfterDisconnect` directive (§4.5). -/
structure DisconnectingState where
  tunnel_close_tx : Nat
  tunnel_close_event : Nat
  after_disconnect : AfterDisconnect
deriving DecidableEq, Repr

/-- The owned state values the Connected state's handlers can produce (§2:
the driver holds exactly one boxed state at a time).  Connecting and Error
states are represented by the data the Connected state hands them: the retry
attempt counter, respectively the error cause. -/
inductive TunnelStateBox
  | connected (state : ConnectedState)
  | disconnecting (state : DisconnectingState)
  | connecting (retry_attempt : Nat)
  | error (cause : ErrorStateCause)
deriving DecidableEq, Repr

/-- Modelled from the spec: `TunnelStateTransition` (not under `src/`) is the
transition record emitted to subscribers on every state change (§4.1);
the Connected record carries the externally visible tunnel endpoint,
the Disconnecting record the `AfterDisconnect` directive. -/
inductive TunnelStateTransition
  | Connecting
  | Connected (endpoint : TunnelEndpoint)
  | Disconnecting (after_disconnect : AfterDisconnect)
  | Error (cause : ErrorStateCause)
deriving DecidableEq, Repr

/-- `EventConsequence` (§4.1): either no transition (the Connected state
retains ownership) or a new state plus a transition record. -/
inductive EventConsequence
  | SameState (state : ConnectedState)
  | NewState (state : TunnelStateBox) (transition : TunnelStateTransition)
deriving DecidableEq, Repr

/-- Modelled from the spec: `DisconnectingState::enter` (not under `src/`)
takes ownership of the stop sender and close future, stores the directive and
emits a Disconnecting transition tagged with it (§4.5). -/
def DisconnectingState.enter (tunnel_close_tx : Nat) (tunnel_close_event : Nat)
    (after_disconnect : AfterDisconnect) :
    TunnelStateBox × TunnelStateTransition :=
  (TunnelStateBox.disconnecting
      { tunnel_close_tx := tunnel_close_tx
        tunnel_close_event := tunnel_close_event
        after_disconnect := after_disconnect },
    TunnelStateTransition.Disconnecting after_disconnect)

/-- Modelled from the spec: `ConnectingState::enter` (not under `src/`)
produces the Connecting state with the given attempt counter (§4.3); its own
entry effects happen outside the Connected state and are not traced here. -/
def ConnectingState.enter (_shared_values : SharedTunnelStateValues)
    (retry_attempt : Nat) : TunnelStateBox × TunnelStateTransition :=
  (TunnelStateBox.connecting retry_attempt, TunnelStateTransition.Connecting)

/-- Modelled from the spec: `ErrorState::enter` (not under `src/`) produces
the Error state for the given cause (§4.6); its own entry effects happen
outside the Connected state and are not traced here. -/
def ErrorState.enter (_shared_values : SharedTunnelStateValues)
    (cause : ErrorStateCause) : TunnelStateBox × TunnelStateTransition :=
  (TunnelStateBox.error cause, TunnelStateTransition.Error cause)

/-- `ConnectedState::resolve_dns`: resolve the configured DNS against the
tunnel gateways. -/
def ConnectedState.resolve_dns (metadata : TunnelMetadata)
    (shared_values : SharedTunnelStateValues) : ResolvedDnsConfig :=
  shared_values.dns_config.resolve metadata.gateways

/-- `ConnectedState::get_firewall_policy` (Linux arms): peer endpoint from
`get_next_hop_endpoint`, clients all iff a local OpenVPN proxy is active,
DNS resolved against the tunnel gateways. -/
def ConnectedState.get_firewall_policy (self : ConnectedState)
    (shared_values : SharedTunnelStateValues) : FirewallPolicy :=
  let endpoint := self.tunnel_parameters.get_next_hop_endpoint
  let clients :=
    if (self.tunnel_parameters.get_openvpn_local_proxy_settings).isSome then
      AllowedClients.All
    else
      AllowedClients.Root
  let peer_endpoint : AllowedEndpoint := { endpoint := endpoint, clients := clients }
  FirewallPolicy.Connected peer_endpoint self.metadata shared_values.allow_lan
    (ConnectedState.resolve_dns self.metadata shared_values)

/-- `ConnectedState::set_firewall_policy`: compute the Connected policy and
apply it via the firewall collaborator; a failure is logged and mapped to
`FirewallPolicyError::Generic` (the non-Windows arm). -/
def ConnectedState.set_firewall_policy (self : ConnectedState)
    (shared_values : SharedTunnelStateValues) :
    Except FirewallPolicyError Unit × List Effect :=
  let policy := self.get_firewall_policy shared_values
  match shared_values.firewall.apply_policy policy with
  | Except.ok () => (Except.ok (), [Effect.ApplyFirewallPolicy policy])
  | Except.error _ =>
      (Except.error FirewallPolicyError.Generic,
        [Effect.ApplyFirewallPolicy policy,
          Effect.LogError "Failed to apply firewall policy for connected state"])

/-- `ConnectedState::set_dns` (non-macOS arm): resolve DNS and hand it to the
DNS monitor for the tunnel interface. -/
def ConnectedState.set_dns (self : ConnectedState)
    (shared_values : SharedTunnelStateValues) :
    Except BoxedError Unit × List Effect :=
  let dns_config := ConnectedState.resolve_dns self.metadata shared_values
  match shared_values.dns_monitor.set self.metadata.interface dns_config with
  | Except.ok () => (Except.ok (), [Effect.SetDns self.metadata.interface dns_config])
  | Except.error error =>
      (Except.error error, [Effect.SetDns self.metadata.interface dns_config])

/-- `ConnectedState::reset_dns` (non-macOS arm): reset DNS before interface
removal; a failure is logged and swallowed. -/
def ConnectedState.reset_dns (shared_values : SharedTunnelStateValues) :
    List Effect :=
  match shared_values.dns_monitor.reset_before_interface_removal with
  | Except.ok () => [Effect.ResetDnsBeforeInterfaceRemoval]
  | Except.error _ =>
      [Effect.ResetDnsBeforeInterfaceRemoval, Effect.LogError "Unable to reset DNS"]

/-- `ConnectedState::reset_routes` (Linux arms): clear routes, then clear the
routing rules; each failure is logged and swallowed. -/
def ConnectedState.reset_routes (shared_values : SharedTunnelStateValues) :
    List Effect :=
  (match shared_values.route_manager.clear_routes with
    | Except.ok () => [Effect.ClearRoutes]
    | Except.error _ =>
        [Effect.ClearRoutes, Effect.LogError "Failed to clear routes"]) ++
  (match shared_values.route_manager.clear_routing_rules with
    | Except.ok () => [Effect.ClearRoutingRules]
    | Except.error _ =>
        [Effect.ClearRoutingRules, Effect.LogError "Failed to clear routing rules"])

/-- `ConnectedState::disconnect`: reset DNS, reset routes, then enter
Disconnecting with the given directive, moving the stop sender and close
future into it. -/
def ConnectedState.disconnect (self : ConnectedState)
    (shared_values : SharedTunnelStateValues)
    (after_disconnect : AfterDisconnect) : EventConsequence × List Effect :=
  let dns_trace := ConnectedState.reset_dns shared_values
  let route_trace := ConnectedState.reset_routes shared_values
  let entered :=
    DisconnectingState.enter self.tunnel_close_tx self.tunnel_close_event
      after_disconnect
  (EventConsequence.NewState entered.1 entered.2, dns_trace ++ route_trace)

/-- `ConnectedState::enter`: build the state, apply the Connected firewall
policy, set DNS, and only if both succeed produce the Connected state and its
transition record; on failure roll forward into Disconnecting/Block. -/
def ConnectedState.enter (shared_values : SharedTunnelStateValues)
    (metadata : TunnelMetadata) (tunnel_events : Nat)
    (tunnel_parameters : TunnelParameters) (tunnel_close_event : Nat)
    (tunnel_close_tx : Nat) :
    (TunnelStateBox × TunnelStateTransition) × List Effect :=
  let connected_state : ConnectedState :=
    { metadata := metadata
      tunnel_events := tunnel_events
      tunnel_parameters := tunnel_parameters
      tunnel_close_event := tunnel_close_event
      tunnel_close_tx := tunnel_close_tx }
  let tunnel_interface := some connected_state.metadata.interface
  let tunnel_endpoint : TunnelEndpoint :=
    { connected_state.tunnel_parameters.get_tunnel_endpoint with
        tunnel_interface := tunnel_interface }
  match connected_state.set_firewall_policy shared_values with
  | (Except.error error, trace) =>
      (DisconnectingState.enter connected_state.tunnel_close_tx
          connected_state.tunnel_close_event
          (AfterDisconnect.Block (ErrorStateCause.SetFirewallPolicyError error)),
        trace)
  | (Except.ok (), fw_trace) =>
      match connected_state.set_dns shared_values with
      | (Except.error _, dns_trace) =>
          (DisconnectingState.enter connected_state.tunnel_close_tx
              connected_state.tunnel_close_event
              (AfterDisconnect.Block ErrorStateCause.SetDnsError),
            fw_trace ++ dns_trace ++ [Effect.LogError "Failed to set DNS"])
      | (Except.ok (), dns_trace) =>
          ((TunnelStateBox.connected connected_state,
              TunnelStateTransition.Connected tunnel_endpoint),
            fw_trace ++ dns_trace)

/-- `TunnelCommand` (§3), restricted to the variants that exist on Linux.
The one-shot completion channels the source pairs with `AllowLan`,
`AllowEndpoint`, `Dns` and `BlockWhenDisconnected` are implicit: a send on
the channel of the command being handled appears as `Effect.CompleteSend`. -/
inductive TunnelCommand
  | AllowLan (allow_lan : Bool)
  | AllowEndpoint (endpoint : AllowedEndpoint)
  | Dns (servers : DnsConfig)
  | BlockWhenDisconnected (block_when_disconnected : Bool)
  | Connectivity (connectivity : Connectivity)
  | Connect
  | Disconnect
  | Block (reason : ErrorStateCause)
deriving DecidableEq, Repr

/-- `ConnectedState::handle_commands` (Linux arms).  Returns the consequence,
the updated shared values and the trace of collaborator calls.  In the `Dns`
arm the source's early `return` on a firewall failure leaves the handler
before the `complete_tx.send`, so that path carries no `CompleteSend`. -/
def ConnectedState.handle_commands (self : ConnectedState)
    (command : Option TunnelCommand) (shared_values : SharedTunnelStateValues) :
    (EventConsequence × SharedTunnelStateValues) × List Effect :=
  match command with
  | some (TunnelCommand.AllowLan allow_lan) =>
      let updated := shared_values.set_allow_lan allow_lan
      let shared_values := updated.1
      let step : EventConsequence × List Effect :=
        if updated.2 then
          match self.set_firewall_policy shared_values with
          | (Except.ok (), trace) => (EventConsequence.SameState self, trace)
          | (Except.error error, trace) =>
              let d := self.disconnect shared_values
                (AfterDisconnect.Block (ErrorStateCause.SetFirewallPolicyError error))
              (d.1, trace ++ d.2)
        else (EventConsequence.SameState self, [])
      ((step.1, shared_values), step.2 ++ [Effect.CompleteSend])
  | some (TunnelCommand.AllowEndpoint endpoint) =>
      ((EventConsequence.SameState self,
          { shared_values with allowed_endpoint := endpoint }),
        [Effect.CompleteSend])
  | some (TunnelCommand.Dns servers) =>
      let updated := shared_values.set_dns_config servers
      let shared_values := updated.1
      if updated.2 then
        match self.set_firewall_policy shared_values with
        | (Except.error error, trace) =>
            let d := self.disconnect shared_values
              (AfterDisconnect.Block (ErrorStateCause.SetFirewallPolicyError error))
            ((d.1, shared_values), trace ++ d.2)
        | (Except.ok (), fw_trace) =>
            match self.set_dns shared_values with
            | (Except.ok (), dns_trace) =>
                ((EventConsequence.SameState self, shared_values),
                  fw_trace ++ dns_trace ++ [Effect.CompleteSend])
            | (Except.error _, dns_trace) =>
                let d := self.disconnect shared_values
                  (AfterDisconnect.Block ErrorStateCause.SetDnsError)
                ((d.1, shared_values),
                  fw_trace ++ dns_trace ++ [Effect.LogError "Failed to set DNS"] ++
                    d.2 ++ [Effect.CompleteSend])
      else ((EventConsequence.SameState self, shared_values), [Effect.CompleteSend])
  | some (TunnelCommand.BlockWhenDisconnected block_when_disconnected) =>
      ((EventConsequence.SameState self,
          { shared_values with block_when_disconnected := block_when_disconnected }),
        [Effect.CompleteSend])
  | some (TunnelCommand.Connectivity connectivity) =>
      let shared_values := { shared_values with connectivity := connectivity }
      if connectivity.is_offline then
        let d := self.disconnect shared_values
          (AfterDisconnect.Block ErrorStateCause.IsOffline)
        ((d.1, shared_values), d.2)
      else ((EventConsequence.SameState self, shared_values), [])
  | some TunnelCommand.Connect =>
      let d := self.disconnect shared_values (AfterDisconnect.Reconnect 0)
      ((d.1, shared_values), d.2)
  | some TunnelCommand.Disconnect | none =>
      let d := self.disconnect shared_values AfterDisconnect.Nothing
      ((d.1, shared_values), d.2)
  | some (TunnelCommand.Block reason) =>
      let d := self.disconnect shared_values (AfterDisconnect.Block reason)
      ((d.1, shared_values), d.2)

/-- The macOS-only `SetExcludedApps` arm of `handle_commands`, embedded
separately (the variant does not exist on Linux).  The outcome of the
macOS-only `shared_values.set_exclude_paths(paths)` — not under `src/` — is
passed in as an oracle: `ok interface_changed` or an error (mapped to an
`Other` cause, standing for `ErrorStateCause::from(&error)`).  The firewall
re-apply uses the shared embedding of `set_firewall_policy`; the macOS-only
redirect-interface field of the policy plays no role in this arm's
channel or transition behaviour. -/
def ConnectedState.handle_set_excluded_apps_macos (self : ConnectedState)
    (set_exclude_paths_result : Except Nat Bool)
    (shared_values : SharedTunnelStateValues) : EventConsequence × List Effect :=
  match set_exclude_paths_result with
  | Except.ok interface_changed =>
      if interface_changed then
        match self.set_firewall_policy shared_values with
        | (Except.ok (), trace) =>
            (EventConsequence.SameState self, Effect.CompleteSend :: trace)
        | (Except.error error, trace) =>
            let d := self.disconnect shared_values
              (AfterDisconnect.Block (ErrorStateCause.SetFirewallPolicyError error))
            (d.1, Effect.CompleteSend :: (trace ++ d.2))
      else (EventConsequence.SameState self, [Effect.CompleteSend])
  | Except.error error =>
      let d := self.disconnect shared_values
        (AfterDisconnect.Block (ErrorStateCause.Other error))
      (d.1, Effect.CompleteSend :: d.2)

/-- `TunnelEvent` (§3): `Up` carries the tunnel metadata, `Down` signals the
tunnel ended without a fatal error.  Each event is delivered paired with a
one-shot acknowledgment sender, an atom here. -/
inductive TunnelEvent
  | Up (metadata : TunnelMetadata)
  | Down
deriving DecidableEq, Repr

/-- `ConnectedState::handle_tunnel_events`: `Down` or a closed event channel
triggers Disconnecting/Reconnect(0); every other event is a no-op. -/
def ConnectedState.handle_tunnel_events (self : ConnectedState)
    (event : Option (TunnelEvent × Nat))
    (shared_values : SharedTunnelStateValues) : EventConsequence × List Effect :=
  match event with
  | some (TunnelEvent.Down, _) | none =>
      self.disconnect shared_values (AfterDisconnect.Reconnect 0)
  | some _ => (EventConsequence.SameState self, [])

/-- `ConnectedState::handle_tunnel_close_event`: with a fatal cause, reset
DNS and routes and enter Error directly; otherwise log, reset DNS and routes
and re-enter Connecting with attempt counter 0. -/
def ConnectedState.handle_tunnel_close_event (_self : ConnectedState)
    (block_reason : Option ErrorStateCause)
    (shared_values : SharedTunnelStateValues) : EventConsequence × List Effect :=
  match block_reason with
  | some block_reason =>
      let trace :=
        ConnectedState.reset_dns shared_values ++
          ConnectedState.reset_routes shared_values
      let entered := ErrorState.enter shared_values block_reason
      (EventConsequence.NewState entered.1 entered.2, trace)
  | none =>
      let trace :=
        ConnectedState.reset_dns shared_values ++
          ConnectedState.reset_routes shared_values
      let entered := ConnectingState.enter shared_values 0
      (EventConsequence.NewState entered.1 entered.2,
        Effect.LogInfo "Tunnel closed. Reconnecting." :: trace)

/-- `EventResult`: which of the three raced sources resolved first.  The
close future resolves with `Result<Option<ErrorStateCause>, Canceled>`;
the `Canceled` error is modelled as `Except.error ()`. -/
inductive EventResult
  | Command (command : Option TunnelCommand)
  | Event (event : Option (TunnelEvent × Nat))
  | Close (result : Except Unit (Option ErrorStateCause))

/-- `<ConnectedState as TunnelState>::handle_event`: dispatch on whichever
stimulus resolved first; a failed close future is logged and treated as a
close with no fatal cause (`result.unwrap_or(None)`). -/
def ConnectedState.handle_event (self : ConnectedState) (result : EventResult)
    (shared_values : SharedTunnelStateValues) :
    (EventConsequence × SharedTunnelStateValues) × List Effect :=
  match result with
  | EventResult.Command command => self.handle_commands command shared_values
  | EventResult.Event event =>
      let r := self.handle_tunnel_events event shared_values
      ((r.1, shared_values), r.2)
  | EventResult.Close result =>
      let warn_trace :=
        match result with
        | Except.error _ =>
            [Effect.LogWarn "Tunnel monitor thread has stopped unexpectedly"]
        | Except.ok _ => []
      let block_reason :=
        match result with
        | Except.ok block_reason => block_reason
        | Except.error _ => none
      let r := self.handle_tunnel_close_event block_reason shared_values
      ((r.1, shared_values), warn_trace ++ r.2)

/-- Number of one-shot completion signals in a trace. -/
def completeSendCount (trace : List Effect) : Nat :=
  (trace.filter fun e => decide (e = Effect.CompleteSend)).length

/-- A concrete WireGuard peer, used to instantiate the theorems. -/
def samplePeer : PeerConfig :=
  { public_key := 1, allowed_ips := [0], endpoint := { ip := 2, port := 51820 },
    psk := none }

def sampleConnection : ConnectionConfig :=
  { tunnel := { private_key := 3, addresses := [4] }, peer := samplePeer,
    exit_peer := none, ipv4_gateway := 10, ipv6_gateway := none, fwmark := none }

def sampleWgParams : Wireguard.TunnelParameters :=
  { connection := sampleConnection,
    options := { mtu := none, quantum_resistant := false },
    generic_options := 0, obfuscation := none }

def sampleParams : TunnelParameters := TunnelParameters.wireguard sampleWgParams

def sampleMetadata : TunnelMetadata :=
  { interface := "wg0", ips := [1064], ipv4_gateway := 10, ipv6_gateway := none }

/-- Collaborators that always succeed. -/
def okFirewall : Firewall := { apply_policy := fun _ => Except.ok () }

def failFirewall : Firewall := { apply_policy := fun _ => Except.error 7 }

def okDnsMonitor : DnsMonitor :=
  { set := fun _ _ => Except.ok (), reset_before_interface_removal := Except.ok () }

def failSetDnsMonitor : DnsMonitor :=
  { set := fun _ _ => Except.error 8, reset_before_interface_removal := Except.ok () }

def okRouteManager : RouteManager :=
  { clear_routes := Except.ok (), clear_routing_rules := Except.ok () }

def sampleShared : SharedTunnelStateValues :=
  { firewall := okFirewall, dns_monitor := okDnsMonitor,
    route_manager := okRouteManager, allow_lan := false,
    block_when_disconnected := false, connectivity := Connectivity.Online,
    dns_config := DnsConfig.default,
    allowed_endpoint :=
      { endpoint :=
          { address := { ip := 5, port := 443 }, protocol := TransportProtocol.Tcp },
        clients := AllowedClients.Root } }

/-- Shared values whose firewall collaborator rejects every policy. -/
def blockedFirewallShared : SharedTunnelStateValues :=
  { sampleShared with firewall := failFirewall }

/-- Shared values whose DNS monitor rejects every `set` call. -/
def failDnsShared : SharedTunnelStateValues :=
  { sampleShared with dns_monitor := failSetDnsMonitor }

def sampleConnected : ConnectedState :=
  { metadata := sampleMetadata, tunnel_events := 0,
    tunnel_parameters := sampleParams, tunnel_close_event := 1,
    tunnel_close_tx := 2 }

/-- `reset_dns` always issues the DNS-reset call, whatever the collaborator
answers. -/
theorem reset_dns_issues_call (shared_values : SharedTunnelStateValues) :
    Effect.ResetDnsBeforeInterfaceRemoval ∈ ConnectedState.reset_dns shared_values := by
  unfold ConnectedState.reset_dns
  cases shared_values.dns_monitor.reset_before_interface_removal <;> simp

/-- `reset_routes` always issues the route-clear call, whatever the
collaborator answers. -/
theorem reset_routes_issues_call (shared_values : SharedTunnelStateValues) :
    Effect.ClearRoutes ∈ ConnectedState.reset_routes shared_values := by
  unfold ConnectedState.reset_routes
  cases shared_values.route_manager.clear_routes <;>
    cases shared_values.route_manager.clear_routing_rules <;> simp

/-- `disconnect` issues both best-effort teardown calls. -/
theorem disconnect_issues_teardown (self : ConnectedState)
    (shared_values : SharedTunnelStateValues) (after_disconnect : AfterDisconnect) :
    Effect.ResetDnsBeforeInterfaceRemoval ∈ (self.disconnect shared_values after_disconnect).2 ∧
      Effect.ClearRoutes ∈ (self.disconnect shared_values after_disconnect).2 := by
  unfold ConnectedState.disconnect
  constructor
  · exact List.mem_append_left _ (reset_dns_issues_call shared_values)
  · exact List.mem_append_right _ (reset_routes_issues_call shared_values)

/-- `disconnect` always produces the Disconnecting state holding the moved
stop sender, close future and directive, plus its transition record —
independently of every collaborator outcome. -/
theorem disconnect_consequence (self : ConnectedState)
    (shared_values : SharedTunnelStateValues) (after_disconnect : AfterDisconnect) :
    (self.disconnect shared_values after_disconnect).1 =
      EventConsequence.NewState
        (TunnelStateBox.disconnecting
          { tunnel_close_tx := self.tunnel_close_tx
            tunnel_close_event := self.tunnel_close_event
            after_disconnect := after_disconnect })
        (TunnelStateTransition.Disconnecting after_disconnect) := by
  rfl

/-- C3: for every `TunnelParameters` value, the peer endpoint placed in
`FirewallPolicy::Connected` is the obfuscator's endpoint when an obfuscation
config is present and otherwise the raw tunnel peer endpoint, and the allowed
clients are all processes when a local proxy/obfuscator is active and
superuser-only otherwise. -/
theorem C3_connected_policy_peer_endpoint_and_clients (self : ConnectedState)
    (shared_values : SharedTunnelStateValues) (pe : AllowedEndpoint)
    (tun : TunnelMetadata) (al : Bool) (dns : ResolvedDnsConfig)
    (h : self.get_firewall_policy shared_values =
      FirewallPolicy.Connected pe tun al dns) :
    pe.endpoint = self.tunnel_parameters.get_next_hop_endpoint ∧
    (∀ wp o, self.tunnel_parameters = TunnelParameters.wireguard wp →
      wp.obfuscation = some o → pe.endpoint = o.get_obfuscator_endpoint) ∧
    (∀ wp, self.tunnel_parameters = TunnelParameters.wireguard wp →
      wp.obfuscation = none → pe.endpoint = wp.connection.get_endpoint) ∧
    pe.clients =
      (if (self.tunnel_parameters.get_openvpn_local_proxy_settings).isSome
        then AllowedClients.All else AllowedClients.Root) := by
  simp only [ConnectedState.get_firewall_policy, FirewallPolicy.Connected.injEq] at h
  obtain ⟨hpe, -, -, -⟩ := h
  subst hpe
  refine ⟨rfl, ?_, ?_, rfl⟩
  · intro wp o hw ho
    simp [hw, TunnelParameters.get_next_hop_endpoint,
      Wireguard.TunnelParameters.get_next_hop_endpoint, ho]
  · intro wp hw ho
    simp [hw, TunnelParameters.get_next_hop_endpoint,
      Wireguard.TunnelParameters.get_next_hop_endpoint, ho]

/-- Witness for C3: the concrete WireGuard parameters without obfuscation
yield the raw peer endpoint and superuser-only clients. -/
theorem C3_witness :
    (AllowedEndpoint.mk
        { address := { ip := 2, port := 51820 },
          protocol := TransportProtocol.Udp }
        AllowedClients.Root).endpoint =
      sampleConnected.tunnel_parameters.get_next_hop_endpoint := by
  exact (C3_connected_policy_peer_endpoint_and_clients sampleConnected sampleShared
    _ sampleMetadata false [10] rfl).1

/-- C6: when the close future resolves with a fatal cause, DNS and routes are
reset and the machine enters Error with that cause directly (no Disconnecting
state); without a fatal cause, DNS and routes are reset and it re-enters
Connecting with attempt counter 0. -/
theorem C6_close_event_error_or_reconnect (self : ConnectedState)
    (shared_values : SharedTunnelStateValues) :
    (∀ cause, self.handle_tunnel_close_event (some cause) shared_values =
      (EventConsequence.NewState (TunnelStateBox.error cause)
          (TunnelStateTransition.Error cause),
        ConnectedState.reset_dns shared_values ++
          ConnectedState.reset_routes shared_values)) ∧
    (self.handle_tunnel_close_event none shared_values =
      (EventConsequence.NewState (TunnelStateBox.connecting 0)
          TunnelStateTransition.Connecting,
        Effect.LogInfo "Tunnel closed. Reconnecting." ::
          (ConnectedState.reset_dns shared_values ++
            ConnectedState.reset_routes shared_values))) ∧
    Effect.ResetDnsBeforeInterfaceRemoval ∈ ConnectedState.reset_dns shared_values ∧
    Effect.ClearRoutes ∈ ConnectedState.reset_routes shared_values := by
  exact ⟨fun cause => rfl, rfl, reset_dns_issues_call shared_values,
    reset_routes_issues_call shared_values⟩

/-- C7: a `Connectivity` command reporting fully-offline status yields
Disconnecting with `AfterDisconnect::Block(IsOffline)`; any online status
leaves the machine in Connected (`SameState`). -/
theorem C7_connectivity_offline_blocks (self : ConnectedState)
    (shared_values : SharedTunnelStateValues) (connectivity : Connectivity) :
    (connectivity.is_offline = true →
      (self.handle_commands (some (TunnelCommand.Connectivity connectivity))
          shared_values).1.1 =
        EventConsequence.NewState
          (TunnelStateBox.disconnecting
            { tunnel_close_tx := self.tunnel_close_tx
              tunnel_close_event := self.tunnel_close_event
              after_disconnect := AfterDisconnect.Block ErrorStateCause.IsOffline })
          (TunnelStateTransition.Disconnecting
            (AfterDisconnect.Block ErrorStateCause.IsOffline))) ∧
    (connectivity.is_offline = false →
      (self.handle_commands (some (TunnelCommand.Connectivity connectivity))
          shared_values).1.1 = EventConsequence.SameState self) := by
  cases connectivity <;>
    simp [ConnectedState.handle_commands, Connectivity.is_offline,
      ConnectedState.disconnect, DisconnectingState.enter]

/-- Witness for C7: offline connectivity at the concrete state blocks. -/
theorem C7_witness :
    (sampleConnected.handle_commands
        (some (TunnelCommand.Connectivity Connectivity.Offline)) sampleShared).1.1 =
      EventConsequence.NewState
        (TunnelStateBox.disconnecting
          { tunnel_close_tx := 2, tunnel_close_event := 1,
            after_disconnect := AfterDisconnect.Block ErrorStateCause.IsOffline })
        (TunnelStateTransition.Disconnecting
          (AfterDisconnect.Block ErrorStateCause.IsOffline)) := by
  exact (C7_connectivity_offline_blocks sampleConnected sampleShared
    Connectivity.Offline).1 rfl

/-- C8: an explicit `Disconnect` command and a closed command channel
(`None`) produce the identical outcome — Disconnecting with
`AfterDisconnect::Nothing`. -/
theorem C8_disconnect_equals_channel_closed (self : ConnectedState)
    (shared_values : SharedTunnelStateValues) :
    self.handle_commands (some TunnelCommand.Disconnect) shared_values =
      self.handle_commands none shared_values ∧
    (self.handle_commands none shared_values).1.1 =
      EventConsequence.NewState
        (TunnelStateBox.disconnecting
          { tunnel_close_tx := self.tunnel_close_tx
            tunnel_close_event := self.tunnel_close_event
            after_disconnect := AfterDisconnect.Nothing })
        (TunnelStateTransition.Disconnecting AfterDisconnect.Nothing) := by
  exact ⟨rfl, disconnect_consequence self shared_values AfterDisconnect.Nothing⟩

/-- C9: any tunnel event other than `Down` (e.g. a duplicate `Up`) leaves the
machine in `SameState` with the shared context untouched and no collaborator
calls; only `Down` or closure of the tunnel-event channel triggers
Disconnecting with `AfterDisconnect::Reconnect(0)`. -/
theorem C9_non_down_events_are_noops (self : ConnectedState)
    (shared_values : SharedTunnelStateValues) (metadata : TunnelMetadata)
    (ack : Nat) :
    (self.handle_event (EventResult.Event (some (TunnelEvent.Up metadata, ack)))
        shared_values = ((EventConsequence.SameState self, shared_values), [])) ∧
    ((self.handle_tunnel_events (some (TunnelEvent.Down, ack)) shared_values).1 =
      EventConsequence.NewState
        (TunnelStateBox.disconnecting
          { tunnel_close_tx := self.tunnel_close_tx
            tunnel_close_event := self.tunnel_close_event
            after_disconnect := AfterDisconnect.Reconnect 0 })
        (TunnelStateTransition.Disconnecting (AfterDisconnect.Reconnect 0))) ∧
    ((self.handle_tunnel_events none shared_values).1 =
      EventConsequence.NewState
        (TunnelStateBox.disconnecting
          { tunnel_close_tx := self.tunnel_close_tx
            tunnel_close_event := self.tunnel_close_event
            after_disconnect := AfterDisconnect.Reconnect 0 })
        (TunnelStateTransition.Disconnecting (AfterDisconnect.Reconnect 0))) ∧
    (∀ event consequence transition,
      (self.handle_tunnel_events event shared_values).1 =
          EventConsequence.NewState consequence transition →
        event = none ∨ ∃ a, event = some (TunnelEvent.Down, a)) := by
  refine ⟨rfl, disconnect_consequence self shared_values (AfterDisconnect.Reconnect 0),
    disconnect_consequence self shared_values (AfterDisconnect.Reconnect 0), ?_⟩
  intro event consequence transition h
  match event with
  | none => exact Or.inl rfl
  | some (TunnelEvent.Down, a) => exact Or.inr ⟨a, rfl⟩
  | some (TunnelEvent.Up md, a) =>
      simp [ConnectedState.handle_tunnel_events] at h

/-- Witness for C9: a duplicate `Up` at the concrete state is a no-op. -/
theorem C9_witness :
    sampleConnected.handle_event
        (EventResult.Event (some (TunnelEvent.Up sampleMetadata, 3))) sampleShared =
      ((EventConsequence.SameState sampleConnected, sampleShared), []) := by
  exact (C9_non_down_events_are_noops sampleConnected sampleShared sampleMetadata 3).1

/-- C10: a close-future channel error (tunnel monitor thread gone) is logged
and treated as a close with no fatal cause — DNS and routes are reset and the
machine re-enters Connecting with attempt counter 0, never Error. -/
theorem C10_close_channel_error_reconnects (self : ConnectedState)
    (shared_values : SharedTunnelStateValues) :
    (self.handle_event (EventResult.Close (Except.error ())) shared_values =
      ((EventConsequence.NewState (TunnelStateBox.connecting 0)
          TunnelStateTransition.Connecting, shared_values),
        Effect.LogWarn "Tunnel monitor thread has stopped unexpectedly" ::
          Effect.LogInfo "Tunnel closed. Reconnecting." ::
            (ConnectedState.reset_dns shared_values ++
              ConnectedState.reset_routes shared_values))) ∧
    (∀ cause transition,
      (self.handle_event (EventResult.Close (Except.error ())) shared_values).1.1 ≠
        EventConsequence.NewState (TunnelStateBox.error cause) transition) ∧
    Effect.ResetDnsBeforeInterfaceRemoval ∈
      (self.handle_event (EventResult.Close (Except.error ())) shared_values).2 ∧
    Effect.ClearRoutes ∈
      (self.handle_event (EventResult.Close (Except.error ())) shared_values).2 := by
  refine ⟨rfl, ?_, ?_, ?_⟩
  · intro cause transition h
    simp [ConnectedState.handle_event, ConnectedState.handle_tunnel_close_event,
      ConnectingState.enter] at h
  · exact List.mem_cons_of_mem _ (List.mem_cons_of_mem _
      (List.mem_append_left _ (reset_dns_issues_call shared_values)))
  · exact List.mem_cons_of_mem _ (List.mem_cons_of_mem _
      (List.mem_append_right _ (reset_routes_issues_call shared_values)))

/-- In a trace whose head is not a DNS-set call, any DNS-set call sits at a
positive index. -/
theorem cons_head_not_setDns_index_pos (a : Effect) (rest : List Effect)
    (ha : ∀ iface cfg, a ≠ Effect.SetDns iface cfg) :
    ∀ i iface cfg, (a :: rest)[i]? = some (Effect.SetDns iface cfg) → 0 < i := by
  intro i iface cfg h
  match i with
  | 0 =>
      exfalso
      simp only [List.getElem?_cons_zero, Option.some.injEq] at h
      exact ha iface cfg h
  | Nat.succ n => exact Nat.succ_pos n

/-- C1: on entry into Connected the firewall policy is applied first (the
head of the effect trace, hence before any DNS effect and before the returned
transition record exists); the pair (Connected state, Connected transition)
is returned iff both the firewall step and the DNS step succeed; a firewall
failure yields Disconnecting/Block(SetFirewallPolicyError) and a DNS failure
after a firewall success yields Disconnecting/Block(SetDnsError). -/
theorem C1_enter_firewall_first_and_outcomes
    (shared_values : SharedTunnelStateValues) (self : ConnectedState) :
    ((ConnectedState.enter shared_values self.metadata self.tunnel_events
        self.tunnel_parameters self.tunnel_close_event self.tunnel_close_tx).2.head? =
      some (Effect.ApplyFirewallPolicy (self.get_firewall_policy shared_values))) ∧
    (∀ i iface cfg,
      (ConnectedState.enter shared_values self.metadata self.tunnel_events
          self.tunnel_parameters self.tunnel_close_event self.tunnel_close_tx).2[i]? =
        some (Effect.SetDns iface cfg) → 0 < i) ∧
    ((∃ te, (ConnectedState.enter shared_values self.metadata self.tunnel_events
        self.tunnel_parameters self.tunnel_close_event self.tunnel_close_tx).1 =
          (TunnelStateBox.connected self, TunnelStateTransition.Connected te)) ↔
      ((self.set_firewall_policy shared_values).1 = Except.ok () ∧
        (self.set_dns shared_values).1 = Except.ok ())) ∧
    (∀ e, (self.set_firewall_policy shared_values).1 = Except.error e →
      (ConnectedState.enter shared_values self.metadata self.tunnel_events
          self.tunnel_parameters self.tunnel_close_event self.tunnel_close_tx).1 =
        DisconnectingState.enter self.tunnel_close_tx self.tunnel_close_event
          (AfterDisconnect.Block (ErrorStateCause.SetFirewallPolicyError e))) ∧
    ((self.set_firewall_policy shared_values).1 = Except.ok () →
      ∀ e, (self.set_dns shared_values).1 = Except.error e →
        (ConnectedState.enter shared_values self.metadata self.tunnel_events
            self.tunnel_parameters self.tunnel_close_event self.tunnel_close_tx).1 =
          DisconnectingState.enter self.tunnel_close_tx self.tunnel_close_event
            (AfterDisconnect.Block ErrorStateCause.SetDnsError)) := by
  cases hfw : shared_values.firewall.apply_policy
      (self.get_firewall_policy shared_values) with
  | error e =>
      refine ⟨?_, ?_, ?_, ?_, ?_⟩ <;>
        simp only [ConnectedState.enter, ConnectedState.set_firewall_policy,
          DisconnectingState.enter, hfw] <;>
        try simp
      exact cons_head_not_setDns_index_pos _ _ (fun _ _ h => by cases h)
  | ok u =>
      cases u
      cases hdns : shared_values.dns_monitor.set self.metadata.interface
          (ConnectedState.resolve_dns self.metadata shared_values) with
      | error e =>
          refine ⟨?_, ?_, ?_, ?_, ?_⟩ <;>
            simp only [ConnectedState.enter, ConnectedState.set_firewall_policy,
              ConnectedState.set_dns, DisconnectingState.enter, hfw, hdns] <;>
            try simp
          exact cons_head_not_setDns_index_pos _ _ (fun _ _ h => by cases h)
      | ok v =>
          cases v
          refine ⟨?_, ?_, ?_, ?_, ?_⟩ <;>
            simp only [ConnectedState.enter, ConnectedState.set_firewall_policy,
              ConnectedState.set_dns, DisconnectingState.enter, hfw, hdns] <;>
            try simp
          exact cons_head_not_setDns_index_pos _ _ (fun _ _ h => by cases h)

/-- Witness for C1: with a firewall collaborator that rejects the policy,
entering Connected rolls forward into
Disconnecting/Block(SetFirewallPolicyError). -/
theorem C1_witness :
    (ConnectedState.enter blockedFirewallShared sampleMetadata 0 sampleParams 1 2).1 =
      DisconnectingState.enter 2 1
        (AfterDisconnect.Block
          (ErrorStateCause.SetFirewallPolicyError FirewallPolicyError.Generic)) := by
  exact (C1_enter_firewall_first_and_outcomes blockedFirewallShared
    sampleConnected).2.2.2.1 FirewallPolicyError.Generic rfl

/-- C2: every command- or event-triggered transition of the Connected state
into Disconnecting issues the DNS-reset call and the route-clear call (they
are in the effect trace; the Disconnecting value is only the result of that
same computation), and a failure of any of the best-effort teardown calls is
logged and never prevents or alters the transition (the produced state and
transition are a fixed value, independent of every collaborator outcome). -/
theorem C2_disconnect_paths_reset_dns_and_routes (self : ConnectedState)
    (shared_values : SharedTunnelStateValues) (after_disconnect : AfterDisconnect)
    (result : EventResult) :
    ((self.disconnect shared_values after_disconnect).1 =
      EventConsequence.NewState
        (TunnelStateBox.disconnecting
          { tunnel_close_tx := self.tunnel_close_tx
            tunnel_close_event := self.tunnel_close_event
            after_disconnect := after_disconnect })
        (TunnelStateTransition.Disconnecting after_disconnect)) ∧
    (∀ e, shared_values.dns_monitor.reset_before_interface_removal = Except.error e →
      Effect.LogError "Unable to reset DNS" ∈
        (self.disconnect shared_values after_disconnect).2) ∧
    (∀ e, shared_values.route_manager.clear_routes = Except.error e →
      Effect.LogError "Failed to clear routes" ∈
        (self.disconnect shared_values after_disconnect).2) ∧
    (∀ e, shared_values.route_manager.clear_routing_rules = Except.error e →
      Effect.LogError "Failed to clear routing rules" ∈
        (self.disconnect shared_values after_disconnect).2) ∧
    (∀ ds transition,
      (self.handle_event result shared_values).1.1 =
          EventConsequence.NewState (TunnelStateBox.disconnecting ds) transition →
        Effect.ResetDnsBeforeInterfaceRemoval ∈
            (self.handle_event result shared_values).2 ∧
          Effect.ClearRoutes ∈ (self.handle_event result shared_values).2) := by
  refine ⟨disconnect_consequence self shared_values after_disconnect, ?_, ?_, ?_, ?_⟩
  · intro e he
    simp [ConnectedState.disconnect, ConnectedState.reset_dns, he]
  · intro e he
    simp [ConnectedState.disconnect, ConnectedState.reset_routes, he]
  · intro e he
    simp [ConnectedState.disconnect, ConnectedState.reset_routes, he]
  · intro ds transition h
    cases result with
    | Close close_result =>
        exfalso
        rcases close_result with u | block_reason
        · simp [ConnectedState.handle_event, ConnectedState.handle_tunnel_close_event,
            ConnectingState.enter] at h
        · cases block_reason with
          | some cause =>
              simp [ConnectedState.handle_event, ConnectedState.handle_tunnel_close_event,
                ErrorState.enter] at h
          | none =>
              simp [ConnectedState.handle_event, ConnectedState.handle_tunnel_close_event,
                ConnectingState.enter] at h
    | Event event =>
        match event with
        | none =>
            exact disconnect_issues_teardown self shared_values (AfterDisconnect.Reconnect 0)
        | some (TunnelEvent.Down, a) =>
            exact disconnect_issues_teardown self shared_values (AfterDisconnect.Reconnect 0)
        | some (TunnelEvent.Up md, a) =>
            exfalso
            simp [ConnectedState.handle_event, ConnectedState.handle_tunnel_events] at h
    | Command command =>
        match command with
        | none =>
            exact disconnect_issues_teardown self shared_values AfterDisconnect.Nothing
        | some TunnelCommand.Disconnect =>
            exact disconnect_issues_teardown self shared_values AfterDisconnect.Nothing
        | some TunnelCommand.Connect =>
            exact disconnect_issues_teardown self shared_values (AfterDisconnect.Reconnect 0)
        | some (TunnelCommand.Block reason) =>
            exact disconnect_issues_teardown self shared_values (AfterDisconnect.Block reason)
        | some (TunnelCommand.AllowEndpoint endpoint) =>
            exfalso
            simp [ConnectedState.handle_event, ConnectedState.handle_commands] at h
        | some (TunnelCommand.BlockWhenDisconnected b) =>
            exfalso
            simp [ConnectedState.handle_event, ConnectedState.handle_commands] at h
        | some (TunnelCommand.Connectivity connectivity) =>
            cases connectivity with
            | Online =>
                exfalso
                simp [ConnectedState.handle_event, ConnectedState.handle_commands,
                  Connectivity.is_offline] at h
            | Offline =>
                exact disconnect_issues_teardown self
                  { shared_values with connectivity := Connectivity.Offline }
                  (AfterDisconnect.Block ErrorStateCause.IsOffline)
        | some (TunnelCommand.AllowLan allow_lan) =>
            by_cases hch : (shared_values.set_allow_lan allow_lan).2
            · rcases hfw : self.set_firewall_policy (shared_values.set_allow_lan allow_lan).1
                with ⟨res, tr⟩
              cases res with
              | ok u =>
                  exfalso
                  cases u
                  simp [ConnectedState.handle_event, ConnectedState.handle_commands,
                    hch, hfw] at h
              | error e =>
                  have hm := disconnect_issues_teardown self
                    (shared_values.set_allow_lan allow_lan).1
                    (AfterDisconnect.Block (ErrorStateCause.SetFirewallPolicyError e))
                  constructor
                  · simp [ConnectedState.handle_event, ConnectedState.handle_commands,
                      hch, hfw, List.mem_append, hm.1]
                  · simp [ConnectedState.handle_event, ConnectedState.handle_commands,
                      hch, hfw, List.mem_append, hm.2]
            · exfalso
              simp [ConnectedState.handle_event, ConnectedState.handle_commands, hch] at h
        | some (TunnelCommand.Dns servers) =>
            by_cases hch : (shared_values.set_dns_config servers).2
            · rcases hfw : self.set_firewall_policy (shared_values.set_dns_config servers).1
                with ⟨res, tr⟩
              cases res with
              | error e =>
                  have hm := disconnect_issues_teardown self
                    (shared_values.set_dns_config servers).1
                    (AfterDisconnect.Block (ErrorStateCause.SetFirewallPolicyError e))
                  constructor
                  · simp [ConnectedState.handle_event, ConnectedState.handle_commands,
                      hch, hfw, List.mem_append, hm.1]
                  · simp [ConnectedState.handle_event, ConnectedState.handle_commands,
                      hch, hfw, List.mem_append, hm.2]
              | ok u =>
                  cases u
                  rcases hdns : self.set_dns (shared_values.set_dns_config servers).1
                    with ⟨dres, dtr⟩
                  cases dres with
                  | ok v =>
                      exfalso
                      cases v
                      simp [ConnectedState.handle_event, ConnectedState.handle_commands,
                        hch, hfw, hdns] at h
                  | error e =>
                      have hm := disconnect_issues_teardown self
                        (shared_values.set_dns_config servers).1
                        (AfterDisconnect.Block ErrorStateCause.SetDnsError)
                      constructor
                      · simp [ConnectedState.handle_event, ConnectedState.handle_commands,
                          hch, hfw, hdns, List.mem_append, hm.1]
                      · simp [ConnectedState.handle_event, ConnectedState.handle_commands,
                          hch, hfw, hdns, List.mem_append, hm.2]
            · exfalso
              simp [ConnectedState.handle_event, ConnectedState.handle_commands, hch] at h

/-- Witness for C2: an explicit disconnect at the concrete state issues both
teardown calls. -/
theorem C2_witness :
    Effect.ResetDnsBeforeInterfaceRemoval ∈
        (sampleConnected.handle_event (EventResult.Command none) sampleShared).2 ∧
      Effect.ClearRoutes ∈
        (sampleConnected.handle_event (EventResult.Command none) sampleShared).2 := by
  exact (C2_disconnect_paths_reset_dns_and_routes sampleConnected sampleShared
    AfterDisconnect.Nothing (EventResult.Command none)).2.2.2.2
    { tunnel_close_tx := 2, tunnel_close_event := 1,
      after_disconnect := AfterDisconnect.Nothing }
    (TunnelStateTransition.Disconnecting AfterDisconnect.Nothing) rfl

/-- C5: a `Dns` command whose server list differs re-applies the firewall
policy first (head of the trace) and only then re-resolves and re-applies DNS
(any DNS-set call sits at a positive index); a firewall re-apply failure
yields Disconnecting/Block(SetFirewallPolicyError), a DNS-apply failure
yields Disconnecting/Block(SetDnsError), and an unchanged server list leaves
the state, the shared values and every collaborator setting untouched
(`SameState`, with the acknowledgment as the only effect). -/
theorem C5_dns_command_refresh_or_noop (self : ConnectedState)
    (shared_values : SharedTunnelStateValues) (servers : DnsConfig) :
    (shared_values.dns_config = servers →
      self.handle_commands (some (TunnelCommand.Dns servers)) shared_values =
        ((EventConsequence.SameState self, shared_values), [Effect.CompleteSend])) ∧
    (shared_values.dns_config ≠ servers →
      ((self.handle_commands (some (TunnelCommand.Dns servers)) shared_values).2.head? =
        some (Effect.ApplyFirewallPolicy
          (self.get_firewall_policy { shared_values with dns_config := servers }))) ∧
      (∀ i iface cfg,
        (self.handle_commands (some (TunnelCommand.Dns servers)) shared_values).2[i]? =
          some (Effect.SetDns iface cfg) → 0 < i) ∧
      (∀ e, (self.set_firewall_policy { shared_values with dns_config := servers }).1 =
          Except.error e →
        (self.handle_commands (some (TunnelCommand.Dns servers)) shared_values).1.1 =
          EventConsequence.NewState
            (TunnelStateBox.disconnecting
              { tunnel_close_tx := self.tunnel_close_tx
                tunnel_close_event := self.tunnel_close_event
                after_disconnect := AfterDisconnect.Block
                  (ErrorStateCause.SetFirewallPolicyError e) })
            (TunnelStateTransition.Disconnecting
              (AfterDisconnect.Block (ErrorStateCause.SetFirewallPolicyError e)))) ∧
      ((self.set_firewall_policy { shared_values with dns_config := servers }).1 =
          Except.ok () →
        (∀ e, (self.set_dns { shared_values with dns_config := servers }).1 =
            Except.error e →
          (self.handle_commands (some (TunnelCommand.Dns servers)) shared_values).1.1 =
            EventConsequence.NewState
              (TunnelStateBox.disconnecting
                { tunnel_close_tx := self.tunnel_close_tx
                  tunnel_close_event := self.tunnel_close_event
                  after_disconnect := AfterDisconnect.Block ErrorStateCause.SetDnsError })
              (TunnelStateTransition.Disconnecting
                (AfterDisconnect.Block ErrorStateCause.SetDnsError))) ∧
        ((self.set_dns { shared_values with dns_config := servers }).1 = Except.ok () →
          (self.handle_commands (some (TunnelCommand.Dns servers)) shared_values).1 =
            (EventConsequence.SameState self,
              { shared_values with dns_config := servers })))) := by
  constructor
  · intro h
    simp [ConnectedState.handle_commands, SharedTunnelStateValues.set_dns_config, h]
  · intro hne
    cases hfw : shared_values.firewall.apply_policy
        (self.get_firewall_policy { shared_values with dns_config := servers }) with
    | error e =>
        refine ⟨?_, ?_, ?_, ?_⟩ <;>
          simp only [ConnectedState.handle_commands,
            SharedTunnelStateValues.set_dns_config, if_neg hne,
            ConnectedState.set_firewall_policy, ConnectedState.disconnect,
            DisconnectingState.enter, hfw] <;> try simp
        exact cons_head_not_setDns_index_pos _ _ (fun _ _ h => by cases h)
    | ok u =>
        cases u
        cases hdns : shared_values.dns_monitor.set self.metadata.interface
            (ConnectedState.resolve_dns self.metadata
              { shared_values with dns_config := servers }) with
        | error e =>
            refine ⟨?_, ?_, ?_, ?_⟩ <;>
              simp only [ConnectedState.handle_commands,
                SharedTunnelStateValues.set_dns_config, if_neg hne,
                ConnectedState.set_firewall_policy, ConnectedState.set_dns,
                ConnectedState.disconnect, DisconnectingState.enter, hfw, hdns] <;>
              try simp
            exact cons_head_not_setDns_index_pos _ _ (fun _ _ h => by cases h)
        | ok v =>
            cases v
            refine ⟨?_, ?_, ?_, ?_⟩ <;>
              simp only [ConnectedState.handle_commands,
                SharedTunnelStateValues.set_dns_config, if_neg hne,
                ConnectedState.set_firewall_policy, ConnectedState.set_dns,
                ConnectedState.disconnect, DisconnectingState.enter, hfw, hdns] <;>
              try simp
            exact cons_head_not_setDns_index_pos _ _ (fun _ _ h => by cases h)

/-- Witness for C5: a differing server list with succeeding collaborators
stays Connected and stores the new DNS configuration. -/
theorem C5_witness :
    (sampleConnected.handle_commands
        (some (TunnelCommand.Dns (DnsConfig.custom [9]))) sampleShared).1 =
      (EventConsequence.SameState sampleConnected,
        { sampleShared with dns_config := DnsConfig.custom [9] }) := by
  exact ((((C5_dns_command_refresh_or_noop sampleConnected sampleShared
    (DnsConfig.custom [9])).2 (by decide)).2.2.2) rfl).2 rfl

/-- C4, failing path: in the `Dns` handler, a firewall re-apply failure takes
the source's early `return self.disconnect(..)`, skipping the
`complete_tx.send(())` that every other path performs — the completion
channel is dropped with zero signals, against the stated exactly-once
contract.  For contrast, on the same failing firewall the `AllowLan` handler
still signals exactly once, and the `Dns` handler's DNS-failure path and the
macOS `SetExcludedApps` arm's paths each signal exactly once. -/
theorem C4_dns_ack_dropped_on_firewall_failure :
    completeSendCount ((sampleConnected.handle_commands
        (some (TunnelCommand.Dns (DnsConfig.custom [9]))) blockedFirewallShared).2) = 0 ∧
    (sampleConnected.handle_commands (some (TunnelCommand.Dns (DnsConfig.custom [9])))
        blockedFirewallShared).1.1 =
      EventConsequence.NewState
        (TunnelStateBox.disconnecting
          { tunnel_close_tx := 2, tunnel_close_event := 1,
            after_disconnect := AfterDisconnect.Block
              (ErrorStateCause.SetFirewallPolicyError FirewallPolicyError.Generic) })
        (TunnelStateTransition.Disconnecting
          (AfterDisconnect.Block
            (ErrorStateCause.SetFirewallPolicyError FirewallPolicyError.Generic))) ∧
    completeSendCount ((sampleConnected.handle_commands
        (some (TunnelCommand.AllowLan true)) blockedFirewallShared).2) = 1 ∧
    completeSendCount ((sampleConnected.handle_commands
        (some (TunnelCommand.Dns (DnsConfig.custom [9]))) failDnsShared).2) = 1 ∧
    completeSendCount ((sampleConnected.handle_commands
        (some (TunnelCommand.AllowEndpoint sampleShared.allowed_endpoint))
        sampleShared).2) = 1 ∧
    completeSendCount ((sampleConnected.handle_commands
        (some (TunnelCommand.BlockWhenDisconnected true)) sampleShared).2) = 1 ∧
    completeSendCount ((sampleConnected.handle_set_excluded_apps_macos
        (Except.ok true) blockedFirewallShared).2) = 1 ∧
    completeSendCount ((sampleConnected.handle_set_excluded_apps_macos
        (Except.error 5) sampleShared).2) = 1 := by
  refine ⟨rfl, rfl, rfl, rfl, rfl, rfl, rfl, rfl⟩

/-- Witness for C6: a fatal cause at the concrete state enters Error
directly, after the teardown calls. -/
theorem C6_witness :
    sampleConnected.handle_tunnel_close_event (some (ErrorStateCause.Other 3))
        sampleShared =
      (EventConsequence.NewState (TunnelStateBox.error (ErrorStateCause.Other 3))
          (TunnelStateTransition.Error (ErrorStateCause.Other 3)),
        [Effect.ResetDnsBeforeInterfaceRemoval, Effect.ClearRoutes,
          Effect.ClearRoutingRules]) := by
  exact (C6_close_event_error_or_reconnect sampleConnected sampleShared).1
    (ErrorStateCause.Other 3)

/-- Witness for C8: at the concrete state, `Disconnect` and channel closure
coincide. -/
theorem C8_witness :
    sampleConnected.handle_commands (some TunnelCommand.Disconnect) sampleShared =
      sampleConnected.handle_commands none sampleShared := by
  exact (C8_disconnect_equals_channel_closed sampleConnected sampleShared).1

/-- Witness for C10: a close-channel error at the concrete state re-enters
Connecting(0) after logging and teardown. -/
theorem C10_witness :
    sampleConnected.handle_event (EventResult.Close (Except.error ())) sampleShared =
      ((EventConsequence.NewState (TunnelStateBox.connecting 0)
          TunnelStateTransition.Connecting, sampleShared),
        [Effect.LogWarn "Tunnel monitor thread has stopped unexpectedly",
          Effect.LogInfo "Tunnel closed. Reconnecting.",
          Effect.ResetDnsBeforeInterfaceRemoval, Effect.ClearRoutes,
          Effect.ClearRoutingRules]) := by
  exact (C10_close_channel_error_reconnects sampleConnected sampleShared).1
